import Mathlib

/-!
Verification of the cookie-v2bot stats/progression engine.

This file gives a shallow embedding of the repository's core logic:
the SQLite-backed store (`src/database.py`) and the progression engine
(`src/bot.py`, class `CookieBot`), and proves or refutes the frozen
claims about them.

Modelling conventions:
* SQLite tables are Lean lists of rows; every store write is modelled as a
  pure function from the database value to a new database value.
* Python exceptions are modelled with `Except String`; a `try/except` block
  that logs and continues becomes a `match` that restores the pre-block
  state on `.error`.
* Machine integers are `Int` (Python ints are unbounded, so no wrap-around
  is modelled).
* A crucial point of CPython semantics: built-in `dict.get` is declared
  with positional-only parameters (`get(self, key, default=None, /`)), so
  calling it with the keyword argument `default=` raises
  `TypeError: dict.get() takes no keyword arguments` regardless of the
  dictionary, the key, or the value.  The repository does this on plain
  `dict`s (loaded by `tomllib` or built literally) in many hot-path lines
  (bot.py 262, 290, 305, 517, 529, 609, 635, 688, 728, 741, 751, 783, 795,
  828-830, 843, 904, 912, 922); only `Config.get` (config_loader.py), whose
  own signature is `get(self, *keys, default=None)`, accepts the keyword.
  `pyDictGetKw` models the failing calls.
* For several claims the evident intent of such a line is the positional
  default (`d.get(k, v)`); definitions with the suffix `_fixed` model the
  code with only that slip corrected, and are clearly marked.
-/

namespace Cookie

/-- The message CPython produces when a built-in `dict`'s `get` method is
called with a keyword argument. -/
def typeErrMsg : String := "TypeError: dict.get() takes no keyword arguments"

/-- Models `d.get(k, default=v)` on a plain Python `dict`: built-in
`dict.get` has positional-only parameters, so the call raises `TypeError`
for every dictionary `d`, key `k` and default `v`.  The arguments are kept
so each call site can be diffed against its source line. -/
def pyDictGetKw {δ β : Type} (_d : δ) (_k : String) (_v : β) : Except String β :=
  Except.error typeErrMsg

/-- Row of the `messages` table (database.py `_init`): append-only message
events. -/
structure Msg where
  user_id : Int
  chat_id : Int
  msg_type : String
  ts : Int
deriving Repr, DecidableEq

/-- Row of the `users` table: schema has `total_exp INTEGER DEFAULT 0` and
`level INTEGER DEFAULT 1`. -/
structure UserRow where
  user_id : Int
  username : Option String
  first_name : Option String
  last_name : Option String
  total_exp : Int
  level : Int
deriving Repr, DecidableEq

/-- The whole SQLite store: `users`, `chats`, `messages`, `achievements`,
`badges`, `cards` tables.  Achievement / badge / card rows are
`(user_id, key, ts)` triples, mirroring their table columns. -/
structure DB where
  users : List UserRow
  chats : List (Int × String)
  messages : List Msg
  achievements : List (Int × String × Int)
  badges : List (Int × String × Int)
  cards : List (Int × String × Int)
deriving Repr, DecidableEq

/-- The empty store (fresh database). -/
def emptyDB : DB := ⟨[], [], [], [], [], []⟩

/-- Predicate used by the user-table queries (`WHERE user_id = ?`). -/
def user_match (u : Int) (r : UserRow) : Bool := r.user_id == u

/-- Models `Database.get_user_exp`: `SELECT total_exp FROM users WHERE
user_id = ?`, returning 0 when no row matches. -/
def get_user_exp (db : DB) (u : Int) : Int :=
  match db.users.find? (user_match u) with
  | some r => r.total_exp
  | none => 0

/-- Models `Database.get_user_level`: returns 1 when no row matches. -/
def get_user_level (db : DB) (u : Int) : Int :=
  match db.users.find? (user_match u) with
  | some r => r.level
  | none => 1

/-- Models `Database.set_user_level`: `UPDATE users SET level = ? WHERE
user_id = ?`. -/
def set_user_level (db : DB) (u t : Int) : DB :=
  { db with users := db.users.map (fun r => if user_match u r then { r with level := t } else r) }

/-- Models `Database.add_user_exp`: `UPDATE users SET total_exp =
total_exp + ? WHERE user_id = ?`. -/
def add_user_exp (db : DB) (u delta : Int) : DB :=
  { db with users := db.users.map (fun r => if user_match u r then { r with total_exp := r.total_exp + delta } else r) }

/-- Models `Database.record_message`: appends one row to `messages`. -/
def record_message (db : DB) (u c : Int) (mt : String) (ts : Int) : DB :=
  { db with messages := db.messages ++ [⟨u, c, mt, ts⟩] }

/-- Models `Database.upsert_user`: `INSERT INTO users(user_id, username,
first_name, last_name, level) VALUES(?,?,?,?,1) ON CONFLICT(user_id) DO
UPDATE SET username=excluded.username, first_name=excluded.first_name,
last_name=excluded.last_name`.  On conflict only the three display fields
are written; a fresh row gets `level = 1` explicitly and `total_exp = 0`
from the schema default. -/
def upsert_user (db : DB) (uid : Int) (un fn ln : Option String) : DB :=
  if db.users.any (user_match uid) then
    { db with users := db.users.map (fun r =>
        if user_match uid r then { r with username := un, first_name := fn, last_name := ln } else r) }
  else
    { db with users := db.users ++ [⟨uid, un, fn, ln, 0, 1⟩] }

/-- Models `Database.upsert_chat`: insert, or update the title on
conflict. -/
def upsert_chat (db : DB) (c : Int) (title : String) : DB :=
  if db.chats.any (fun r => r.1 == c) then
    { db with chats := db.chats.map (fun r => if r.1 == c then (r.1, title) else r) }
  else
    { db with chats := db.chats ++ [(c, title)] }

/-- Models `Database.add_user_card`: appends one `cards` row. -/
def add_user_card (db : DB) (u : Int) (card : String) (ts : Int) : DB :=
  { db with cards := db.cards ++ [(u, card, ts)] }

/-- Models `Database.get_user_badges`: badge keys of all `badges` rows of
the user, with no time filter. -/
def get_user_badges (db : DB) (u : Int) : List String :=
  (db.badges.filter (fun r => r.1 == u)).map (fun r => r.2.1)

/-- Models `Database.add_user_badges`: one `INSERT` per listed badge, all
with the same timestamp; no uniqueness constraint on the table. -/
def add_user_badges (db : DB) (u : Int) (names : List String) (ts : Int) : DB :=
  { db with badges := db.badges ++ names.map (fun n => (u, n, ts)) }

/-- Predicate of the `achievements` queries (`WHERE user_id = ? AND
achievement = ?`). -/
def ach_match (u : Int) (a : String) (r : Int × String × Int) : Bool :=
  r.1 == u && r.2.1 == a

/-- Models `Database.add_user_achievement`: `INSERT INTO achievements ...
ON CONFLICT(user_id, achievement) DO NOTHING`, where the schema declares
`UNIQUE(user_id, achievement)`: the row is appended exactly when no row
with the same (user, achievement) pair exists. -/
def add_user_achievement (db : DB) (u : Int) (a : String) (ts : Int) : DB :=
  if db.achievements.any (ach_match u a) then db
  else { db with achievements := db.achievements ++ [(u, a, ts)] }

/-- Number of `achievements` rows for one (user, achievement) pair. -/
def count_achievement (db : DB) (u : Int) (a : String) : Nat :=
  (db.achievements.filter (ach_match u a)).length

/-- Repeated unlock attempts: one `add_user_achievement` call per listed
timestamp, in order. -/
def add_achievement_many (db : DB) (u : Int) (a : String) : List Int → DB
  | [] => db
  | ts :: rest => add_achievement_many (add_user_achievement db u a ts) u a rest

/-- Window test of the per-type query in `Database.get_user_counts`: it
appends `AND ts >= ?` for `start_ts` and `AND ts <= ?` for `end_ts`
(note: the end bound is INCLUSIVE in this query). -/
def ts_in_per_type_window (s e : Option Int) (ts : Int) : Bool :=
  (match s with | some a => decide (a ≤ ts) | none => true) &&
  (match e with | some b => decide (ts ≤ b) | none => true)

/-- Window test of the total-count query in `Database.get_user_counts`
(and of `get_leaderboard` / `get_total_messages`): `AND ts >= ?` for
`start_ts` and `AND ts < ?` for `end_ts` (end EXCLUSIVE). -/
def ts_in_total_window (s e : Option Int) (ts : Int) : Bool :=
  (match s with | some a => decide (a ≤ ts) | none => true) &&
  (match e with | some b => decide (ts < b) | none => true)

/-- Models `Database.get_user_counts`: the per-type map (`GROUP BY
msg_type` over the per-type window) together with the `total` count,
which is computed by a second query over the half-open window.  The two
queries bound `end_ts` differently (`<=` versus `<`), exactly as in the
source. -/
def get_user_counts (db : DB) (u : Int) (s e : Option Int) : List (String × Nat) × Nat :=
  let msgs := db.messages.filter (fun m => m.user_id == u && ts_in_per_type_window s e m.ts)
  let types := (msgs.map (fun m => m.msg_type)).eraseDups
  let per := types.map (fun t => (t, (msgs.filter (fun m => m.msg_type == t)).length))
  let total := (db.messages.filter (fun m => m.user_id == u && ts_in_total_window s e m.ts)).length
  (per, total)

/-- Models `Database.get_leaderboard`: per-user message counts of a chat
within the window, ordered by count descending and truncated to `limit`.
SQLite leaves the order of equal counts unspecified; the model breaks
ties by first appearance in the message log (stable insertion sort). -/
def insert_by_count (x : Int × Nat) : List (Int × Nat) → List (Int × Nat)
  | [] => [x]
  | y :: ys => if y.2 < x.2 then x :: y :: ys else y :: insert_by_count x ys

/-- Sorts leaderboard rows by count descending, keeping encounter order on
ties. -/
def sort_by_count (rows : List (Int × Nat)) : List (Int × Nat) :=
  rows.foldl (fun acc x => insert_by_count x acc) []

/-- Models `Database.get_leaderboard` (see `insert_by_count` for the tie
convention). -/
def get_leaderboard (db : DB) (chat : Int) (s e : Option Int) (limit : Nat) : List (Int × Nat) :=
  let msgs := db.messages.filter (fun m => m.chat_id == chat && ts_in_total_window s e m.ts)
  let uids := (msgs.map (fun m => m.user_id)).eraseDups
  let rows := uids.map (fun uid => (uid, (msgs.filter (fun m => m.user_id == uid)).length))
  (sort_by_count rows).take limit

/-- Models `Database.get_sticker_leaderboard`: as `get_leaderboard` but
restricted to `msg_type = 'sticker'`. -/
def get_sticker_leaderboard (db : DB) (chat : Int) (s e : Option Int) (limit : Nat) : List (Int × Nat) :=
  let msgs := db.messages.filter
    (fun m => m.chat_id == chat && m.msg_type == "sticker" && ts_in_total_window s e m.ts)
  let uids := (msgs.map (fun m => m.user_id)).eraseDups
  let rows := uids.map (fun uid => (uid, (msgs.filter (fun m => m.user_id == uid)).length))
  (sort_by_count rows).take limit

/-! ## Storage-failure injection

The spec's error taxonomy has a generic "storage unavailable" failure that
any `Database` call may raise.  `StoreFaults` injects such a failure into
individual calls; the `st_*` wrappers below either raise it or perform the
pure table operation.  All engine code is modelled over these wrappers so
that its `try/except` structure can be examined. -/

/-- Which store calls raise "storage unavailable" (all `false` = healthy
store). -/
structure StoreFaults where
  counts_fail : Bool
  record_fail : Bool
  add_exp_fail : Bool
  exp_read_fail : Bool
  level_read_fail : Bool
  set_level_fail : Bool
  upsert_user_fail : Bool
  upsert_chat_fail : Bool
deriving Repr, DecidableEq

/-- A healthy store: no call fails. -/
def noFaults : StoreFaults := ⟨false, false, false, false, false, false, false, false⟩

/-- The spec's generic storage failure. -/
def storageErrMsg : String := "storage unavailable"

def st_get_user_counts (f : StoreFaults) (db : DB) (u : Int) (s e : Option Int) :
    Except String (List (String × Nat) × Nat) :=
  if f.counts_fail then Except.error storageErrMsg else Except.ok (get_user_counts db u s e)

def st_record_message (f : StoreFaults) (db : DB) (u c : Int) (mt : String) (ts : Int) :
    Except String DB :=
  if f.record_fail then Except.error storageErrMsg else Except.ok (record_message db u c mt ts)

def st_add_user_exp (f : StoreFaults) (db : DB) (u delta : Int) : Except String DB :=
  if f.add_exp_fail then Except.error storageErrMsg else Except.ok (add_user_exp db u delta)

def st_get_user_exp (f : StoreFaults) (db : DB) (u : Int) : Except String Int :=
  if f.exp_read_fail then Except.error storageErrMsg else Except.ok (get_user_exp db u)

def st_get_user_level (f : StoreFaults) (db : DB) (u : Int) : Except String Int :=
  if f.level_read_fail then Except.error storageErrMsg else Except.ok (get_user_level db u)

def st_set_user_level (f : StoreFaults) (db : DB) (u t : Int) : Except String DB :=
  if f.set_level_fail then Except.error storageErrMsg else Except.ok (set_user_level db u t)

def st_upsert_user (f : StoreFaults) (db : DB) (uid : Int) (un fn ln : Option String) :
    Except String DB :=
  if f.upsert_user_fail then Except.error storageErrMsg else Except.ok (upsert_user db uid un fn ln)

def st_upsert_chat (f : StoreFaults) (db : DB) (c : Int) (title : String) : Except String DB :=
  if f.upsert_chat_fail then Except.error storageErrMsg else Except.ok (upsert_chat db c title)

/-! ## Configuration -/

/-- One entry of the `[[levels]]` list in `config/level.toml`; the `delta`
key may be absent (the code reads it with a default of 0). -/
structure LevelCfg where
  delta : Option Int
deriving Repr, DecidableEq

/-- One entry of the `[[cards]]` list: `name`, `emoji`, `description` and
an optional `point` (price). -/
structure CardCfg where
  name : String
  emoji : String
  description : String
  point : Option Int
deriving Repr, DecidableEq

/-- One entry of the `[[badges]]` list: display fields plus the 3-tuple
condition stored under the `type` key. -/
structure BadgeCfg where
  name : String
  emoji : String
  description : String
  condition : List String
deriving Repr, DecidableEq

/-- The engine configuration that `_add_exp` / `check_user_level_up`
consume: `points` is the plain dict at `[experience] points`
(`cfg.get("experience", "points", default={})`), `daily_limit` is
`int(cfg.get("experience", "daily_limit", default=150) or 150)` after its
defaulting, and `levels` is the list from `config/level.toml`.
`Config.get` itself accepts the `default=` keyword, so these reads
succeed. -/
structure Cfg where
  points : List (String × Int)
  daily_limit : Int
  levels : List LevelCfg
deriving Repr, DecidableEq

/-! ## Point resolution (`_add_exp` lines 782-783) -/

/-- Models `int(points_map.get(msg_type, points_map.get("text",
default=1)))` (bot.py 783 and 795).  Python evaluates the inner call
first, and since `points_map` is a plain dict the keyword `default=`
raises `TypeError` before any lookup happens.  The outer positional
lookup is kept to mirror the source expression. -/
def resolvePoint (pm : List (String × Int)) (mt : String) : Except String Int :=
  match pyDictGetKw pm "text" (1 : Int) with
  | .error e => .error e
  | .ok fb => .ok (match pm.lookup mt with | some v => v | none => fb)

/-- Point resolution with the `default=` keyword slip corrected to the
positional default, the evident intent: `points_map.get(msg_type,
points_map.get("text", 1))`. -/
def resolvePoint_fixed (pm : List (String × Int)) (mt : String) : Int :=
  match pm.lookup mt with
  | some v => v
  | none => match pm.lookup "text" with
            | some v => v
            | none => 1

/-- Models the `earned_today` accumulation loop of `_add_exp` (bot.py
791-796): iterate over the counts dict, skip the `"total"` key, and add
`point * count` for each message type; each iteration resolves the type's
point value with the same (raising) expression as line 783. -/
def earned_today_loop (pm : List (String × Int)) (acc : Int) :
    List (String × Nat) → Except String Int
  | [] => .ok acc
  | (t, cnt) :: rest =>
    if t == "total" then earned_today_loop pm acc rest
    else
      match resolvePoint pm t with
      | .error e => .error e
      | .ok p => earned_today_loop pm (acc + p * (cnt : Int)) rest

/-- The `earned_today` loop with the keyword slip corrected. -/
def earned_today_loop_fixed (pm : List (String × Int)) (acc : Int) :
    List (String × Nat) → Int
  | [] => acc
  | (t, cnt) :: rest =>
    if t == "total" then earned_today_loop_fixed pm acc rest
    else earned_today_loop_fixed pm (acc + resolvePoint_fixed pm t * (cnt : Int)) rest

/-! ## Level derivation (`_calculate_level_from_exp`, bot.py 716-734) -/

/-- Models the loop of `_calculate_level_from_exp`: walk the level
entries, accumulate `delta` into the running threshold, and return
`i + 1` at the first threshold strictly above `exp`; past the last entry
return `len + 1`.  Each `delta` is read with
`level_config.get("delta", default=0)`, which raises `TypeError` on the
plain dict. -/
def calc_level_loop (exp : Int) : List LevelCfg → Int → Nat → Except String Int
  | [], _, i => .ok (Int.ofNat i + 1)
  | lc :: rest, total, i =>
    match pyDictGetKw lc "delta" (0 : Int) with
    | .error e => .error e
    | .ok d =>
      let total2 := total + d
      if exp < total2 then .ok (Int.ofNat i + 1) else calc_level_loop exp rest total2 (i + 1)

/-- Models `_calculate_level_from_exp`: returns 1 for an empty level
table, otherwise runs the threshold loop. -/
def calculate_level_from_exp (levels : List LevelCfg) (exp : Int) : Except String Int :=
  if levels.isEmpty then .ok 1 else calc_level_loop exp levels 0 0

/-- The threshold loop with `lc.get("delta", 0)` read positionally (the
evident intent of the `default=` slip). -/
def calc_level_loop_fixed (exp : Int) : List LevelCfg → Int → Nat → Int
  | [], _, i => Int.ofNat i + 1
  | lc :: rest, total, i =>
    let total2 := total + lc.delta.getD 0
    if exp < total2 then Int.ofNat i + 1 else calc_level_loop_fixed exp rest total2 (i + 1)

/-- `_calculate_level_from_exp` with the keyword slip corrected. -/
def calculate_level_from_exp_fixed (levels : List LevelCfg) (exp : Int) : Int :=
  if levels.isEmpty then 1 else calc_level_loop_fixed exp levels 0 0

/-! ## Level-up check (`check_user_level_up`, bot.py 755-778) -/

/-- The body of `check_user_level_up`, generic in the target-level
computation: read exp and stored level, compute the target, and persist it
only when `target > current`.  The whole body sits inside `try/except`, so
any failure (storage or the `TypeError` inside the level computation)
leaves the store untouched. -/
def check_user_level_up_with (calcFn : Int → Except String Int) (f : StoreFaults) (db : DB)
    (u : Int) : DB :=
  match st_get_user_exp f db u with
  | .error _ => db
  | .ok exp =>
    match st_get_user_level f db u with
    | .error _ => db
    | .ok cur =>
      match calcFn exp with
      | .error _ => db
      | .ok target =>
        if target > cur then
          match st_set_user_level f db u target with
          | .ok d => d
          | .error _ => db
        else db

/-- Models `check_user_level_up` as written (its level computation raises
`TypeError` whenever the level table is non-empty; the surrounding
`try/except` swallows that). -/
def check_user_level_up (f : StoreFaults) (levels : List LevelCfg) (db : DB) (u : Int) : DB :=
  check_user_level_up_with (calculate_level_from_exp levels) f db u

/-- `check_user_level_up` over the slip-corrected level computation. -/
def check_user_level_up_fixed (f : StoreFaults) (levels : List LevelCfg) (db : DB) (u : Int) : DB :=
  check_user_level_up_with (fun e => Except.ok (calculate_level_from_exp_fixed levels e)) f db u

/-! ## Experience awarding (`_add_exp`, bot.py 780-822)

`_add_exp` runs: point resolution (782-783), daily limit (784), today's
counts (787-789), the `earned_today` loop (791-796), the award formula
(798-801) — none of that inside a `try` — then `record_message` inside
`try/except` (803-810) and, when `to_add > 0`, `add_user_exp` plus the
level-up check inside a second `try/except` (812-822).  The result type
`DB × Option String` carries the store state at the moment an uncaught
exception escapes (every possible raise point precedes the writes). -/

/-- Lines 782-801 of `_add_exp`: everything up to the computed `to_add`,
with every possible exception propagated (there is no `try` around this
part). -/
def add_exp_pre (f : StoreFaults) (cfg : Cfg) (db : DB) (u : Int) (t0 : Int) (mt : String) :
    Except String Int :=
  match resolvePoint cfg.points mt with
  | .error e => .error e
  | .ok point =>
    match st_get_user_counts f db u (some t0) none with
    | .error e => .error e
    | .ok counts =>
      match earned_today_loop cfg.points 0 (counts.1 ++ [("total", counts.2)]) with
      | .error e => .error e
      | .ok earned =>
        .ok (if earned < cfg.daily_limit then min point (cfg.daily_limit - earned) else 0)

/-- `add_exp_pre` with the two `dict.get` keyword slips corrected. -/
def add_exp_pre_fixed (f : StoreFaults) (cfg : Cfg) (db : DB) (u : Int) (t0 : Int)
    (mt : String) : Except String Int :=
  let point := resolvePoint_fixed cfg.points mt
  match st_get_user_counts f db u (some t0) none with
  | .error e => .error e
  | .ok counts =>
    let earned := earned_today_loop_fixed cfg.points 0 (counts.1 ++ [("total", counts.2)])
    .ok (if earned < cfg.daily_limit then min point (cfg.daily_limit - earned) else 0)

/-- Models `_add_exp`.  `t0` is the midnight timestamp (`start_of_today`).
Returns the resulting store plus `some err` when the method escapes with
an uncaught exception (the store is then in the state it had at the raise
point). -/
def add_exp (f : StoreFaults) (cfg : Cfg) (db : DB) (u c : Int) (mt : String) (ts t0 : Int) :
    DB × Option String :=
  match add_exp_pre f cfg db u t0 mt with
  | .error e => (db, some e)
  | .ok to_add =>
    let db1 := match st_record_message f db u c mt ts with
               | .ok d => d
               | .error _ => db
    if to_add > 0 then
      match st_add_user_exp f db1 u to_add with
      | .ok d => (check_user_level_up f cfg.levels d u, none)
      | .error _ => (db1, none)
    else (db1, none)

/-- `_add_exp` with the `dict.get` keyword slips corrected (in the point
resolution, the `earned_today` loop and the level computation); the
`try/except` structure is unchanged. -/
def add_exp_fixed (f : StoreFaults) (cfg : Cfg) (db : DB) (u c : Int) (mt : String)
    (ts t0 : Int) : DB × Option String :=
  match add_exp_pre_fixed f cfg db u t0 mt with
  | .error e => (db, some e)
  | .ok to_add =>
    let db1 := match st_record_message f db u c mt ts with
               | .ok d => d
               | .error _ => db
    if to_add > 0 then
      match st_add_user_exp f db1 u to_add with
      | .ok d => (check_user_level_up_fixed f cfg.levels d u, none)
      | .error _ => (db1, none)
    else (db1, none)

/-! ## Achievement check (`_unlock_achievement`, bot.py 824-879)

The whole body is wrapped in `try/except`.  Its very first dict read,
`user_counts.get("total", default=0)` (line 828), raises `TypeError`, so
the handler always returns without unlocking anything; only the reads that
precede the raise are modelled explicitly, everything after them is
unreachable. -/

/-- Models `_unlock_achievement`'s body up to its first raise; the value
is the (store, unlocked-names) pair the surrounding `try/except`
produces. -/
def unlock_achievement_body (f : StoreFaults) (db : DB) (u : Int) :
    Except String (DB × List String) :=
  match st_get_user_counts f db u none none with
  | .error e => .error e
  | .ok counts =>
    match pyDictGetKw counts "total" (0 : Nat) with
    | .error e => .error e
    | .ok _total =>
      match pyDictGetKw counts "photo" (0 : Nat) with
      | .error e => .error e
      | .ok _photo =>
        match pyDictGetKw counts "sticker" (0 : Nat) with
        | .error e => .error e
        | .ok _sticker => .ok (db, [])

/-- Models `_unlock_achievement`: `try` body, `except` logs and returns. -/
def unlock_achievement (f : StoreFaults) (db : DB) (u : Int) : DB × List String :=
  match unlock_achievement_body f db u with
  | .ok r => r
  | .error _ => (db, [])

/-! ## Badge check (`_unlock_badge`, bot.py 881-973) -/

/-- Models the 3-tuple badge condition evaluation (bot.py 930-960): only
`("send_message_top", "==", "1")` and `("send_sticker_top", "==", "1")`
can match, by comparing the user against the head of today's (sticker)
leaderboard of the chat; any other shape yields no award. -/
def badge_cond_holds (db : DB) (u : Int) (chat : Option Int) (t0 : Int)
    (cond : List String) : Bool :=
  match cond with
  | [ctype, op, target] =>
    if ctype == "send_message_top" && op == "==" && target == "1" then
      match chat with
      | some cid =>
        match get_leaderboard db cid (some t0) none 1 with
        | (uid, _) :: _ => uid == u
        | [] => false
      | none => false
    else if ctype == "send_sticker_top" && op == "==" && target == "1" then
      match chat with
      | some cid =>
        match get_sticker_leaderboard db cid (some t0) none 1 with
        | (uid, _) :: _ => uid == u
        | [] => false
      | none => false
    else false
  | _ => false

/-- Models the badge loop of `_unlock_badge` as written (bot.py 918-971):
for each configured badge the condition is read with
`badge.get("type", default=[])` (line 922) — which raises `TypeError` on
the plain dict — BEFORE the already-held check (line 925); held badges
are skipped against the lifetime holdings list, and an award appends the
badge name to that list for the rest of the loop. -/
def unlock_badge_loop (db : DB) (u : Int) (chat : Option Int) (t0 ts : Int)
    (held : List String) : List BadgeCfg → Except String (DB × List String)
  | [] => .ok (db, [])
  | b :: rest =>
    match pyDictGetKw b "type" ([] : List String) with
    | .error e => .error e
    | .ok cond =>
      if held.contains b.name then unlock_badge_loop db u chat t0 ts held rest
      else if badge_cond_holds db u chat t0 cond then
        match unlock_badge_loop (add_user_badges db u [b.name] ts) u chat t0 ts
            (held ++ [b.name]) rest with
        | .error e => .error e
        | .ok (d, names) => .ok (d, b.name :: names)
      else unlock_badge_loop db u chat t0 ts held rest

/-- Reading the counts dict with a positional default (slip-corrected
`counts.get(k, d)`): the `"total"` key holds the separate total count,
any other key the per-type count. -/
def counts_get (counts : List (String × Nat) × Nat) (k : String) (d : Nat) : Nat :=
  if k == "total" then counts.2
  else match counts.1.lookup k with | some v => v | none => d

/-- Models the body of `_unlock_badge` as written: lifetime badge holdings
(line 898), today's counts (901-903), then
`today_counts.get("total", default=0)` (904) raises `TypeError`; the
later reads (line 912) and the loop are unreachable but translated. -/
def unlock_badge_body (f : StoreFaults) (db : DB) (u : Int) (chat : Option Int)
    (ts t0 : Int) (badgesCfg : List BadgeCfg) : Except String (DB × List String) :=
  let held := get_user_badges db u
  match st_get_user_counts f db u (some t0) none with
  | .error e => .error e
  | .ok counts =>
    match pyDictGetKw counts "total" (0 : Nat) with
    | .error e => .error e
    | .ok today_messages =>
      if today_messages > 1 then .ok (db, [])
      else
        match pyDictGetKw counts "sticker" (0 : Nat) with
        | .error e => .error e
        | .ok _stickers => unlock_badge_loop db u chat t0 ts held badgesCfg

/-- Models `_unlock_badge`: whole body in `try/except`, which logs and
returns on any exception (in particular the `TypeError` of line 904). -/
def unlock_badge (f : StoreFaults) (db : DB) (u : Int) (chat : Option Int)
    (ts t0 : Int) (badgesCfg : List BadgeCfg) : DB × List String :=
  match unlock_badge_body f db u chat ts t0 badgesCfg with
  | .ok r => r
  | .error _ => (db, [])

/-- The badge loop with the `badge.get("type", default=[])` slip corrected
(the condition is read from the entry directly); held badges are still
skipped against the LIFETIME holdings list, as in the source. -/
def unlock_badge_loop_fixed (db : DB) (u : Int) (chat : Option Int) (t0 ts : Int)
    (held : List String) : List BadgeCfg → DB × List String
  | [] => (db, [])
  | b :: rest =>
    if held.contains b.name then unlock_badge_loop_fixed db u chat t0 ts held rest
    else if badge_cond_holds db u chat t0 b.condition then
      let r := unlock_badge_loop_fixed (add_user_badges db u [b.name] ts) u chat t0 ts
        (held ++ [b.name]) rest
      (r.1, b.name :: r.2)
    else unlock_badge_loop_fixed db u chat t0 ts held rest

/-- `_unlock_badge` with all `dict.get` keyword slips corrected: the
first-message-of-the-day gate and the badge loop become reachable.  The
already-held check still consults `get_user_badges`, i.e. the user's
lifetime holdings (the source's own comments, bot.py 894-897, say it
should look only at badges earned today). -/
def unlock_badge_fixed (db : DB) (u : Int) (chat : Option Int) (ts t0 : Int)
    (badgesCfg : List BadgeCfg) : DB × List String :=
  let held := get_user_badges db u
  let counts := get_user_counts db u (some t0) none
  let today_messages := counts_get counts "total" 0
  if today_messages > 1 then (db, [])
  else unlock_badge_loop_fixed db u chat t0 ts held badgesCfg

/-! ## Card purchase (`cmd_buy_card`, bot.py 664-714) -/

/-- The insufficient-funds rejection text (bot.py 698-700). -/
def msg_insufficient (need cur : Int) : String :=
  "经验值不足！需要 " ++ toString need ++ " 经验值，当前只有 " ++ toString cur ++ " 经验值"

/-- The purchase confirmation (bot.py 712-714), reduced to its data
content (name, spent, remaining). -/
def msg_bought (card : String) (spent remaining : Int) : String :=
  "购买成功:" ++ card ++ ":" ++ toString spent ++ ":" ++ toString remaining

/-- Models `cmd_buy_card`.  Steps: missing argument → usage reply; card
lookup by exact name → "not found" reply; price read
`card_info.get("point", default=0)` (line 688) — raises `TypeError` on the
plain card dict; then (unreachably) the zero-price rejection, the funds
check, the debit (`add_user_exp` with `-price`) and the `cards` append.
The command handler has no `try/except`, so the raise escapes; no store
write precedes it. -/
def cmd_buy_card (cards : List CardCfg) (db : DB) (u : Int) (args : List String)
    (now : Int) : Except String (DB × String) :=
  if args.isEmpty then .ok (db, "请指定要购买的卡片名称，例如：/buycard xxx")
  else
    let card_name := String.intercalate " " args
    match cards.find? (fun c => c.name == card_name) with
    | none => .ok (db, "未找到卡片：" ++ card_name)
    | some info =>
      match pyDictGetKw info "point" (0 : Int) with
      | .error e => .error e
      | .ok card_point =>
        if card_point ≤ 0 then .ok (db, "卡片 " ++ card_name ++ " 价格未设置，无法购买")
        else
          let user_exp := get_user_exp db u
          if user_exp < card_point then .ok (db, msg_insufficient card_point user_exp)
          else
            let db2 := add_user_exp db u (-card_point)
            let db3 := add_user_card db2 u card_name now
            .ok (db3, msg_bought card_name card_point (user_exp - card_point))

/-- `cmd_buy_card` with the price read slip-corrected to
`card_info.get("point", 0)`. -/
def cmd_buy_card_fixed (cards : List CardCfg) (db : DB) (u : Int) (args : List String)
    (now : Int) : DB × String :=
  if args.isEmpty then (db, "请指定要购买的卡片名称，例如：/buycard xxx")
  else
    let card_name := String.intercalate " " args
    match cards.find? (fun c => c.name == card_name) with
    | none => (db, "未找到卡片：" ++ card_name)
    | some info =>
      let card_point := info.point.getD 0
      if card_point ≤ 0 then (db, "卡片 " ++ card_name ++ " 价格未设置，无法购买")
      else
        let user_exp := get_user_exp db u
        if user_exp < card_point then (db, msg_insufficient card_point user_exp)
        else
          let db2 := add_user_exp db u (-card_point)
          let db3 := add_user_card db2 u card_name now
          (db3, msg_bought card_name card_point (user_exp - card_point))

/-! ## Message handler (`on_message`, bot.py 97-146)

`on_message` upserts the user (in `try/except`), upserts the chat when a
title is present (in `try/except`), then awaits `_add_exp` with NO
`try/except` — an exception there escapes the handler and the achievement
and badge checks never run.  The 2% random playful reply is transport-only
and not modelled.  The returned pair carries the store state plus the
escaped exception, if any. -/

def on_message (f : StoreFaults) (cfg : Cfg) (badgesCfg : List BadgeCfg) (db : DB)
    (u c : Int) (un fn ln : Option String) (title : Option String) (mt : String)
    (ts t0 : Int) : DB × Option String :=
  let db1 := match st_upsert_user f db u un fn ln with
             | .ok d => d
             | .error _ => db
  let db2 := match title with
             | some t =>
               match st_upsert_chat f db1 c t with
               | .ok d => d
               | .error _ => db1
             | none => db1
  match add_exp f cfg db2 u c mt ts t0 with
  | (db3, some e) => (db3, some e)
  | (db3, none) =>
    let r4 := unlock_achievement f db3 u
    let r5 := unlock_badge f r4.1 u (some c) ts t0 badgesCfg
    (r5.1, none)

/-- Folds a list of `(msg_type, ts)` events through `on_message` for one
user and chat.  The transport layer (python-telegram-bot's dispatcher)
catches any exception a handler raises and moves on to the next update,
so the store simply keeps the state it had when the handler escaped. -/
def run_events (f : StoreFaults) (cfg : Cfg) (badgesCfg : List BadgeCfg) (db : DB)
    (u c : Int) (evs : List (String × Int)) (t0 : Int) : DB :=
  evs.foldl
    (fun acc ev => (on_message f cfg badgesCfg acc u c none none none none ev.1 ev.2 t0).1) db

/-! ## Fixtures: concrete configurations and stores used by the concrete
evaluations below. -/

/-- A minimal experience configuration: `points = {text = 1}`,
`daily_limit = 150`, no level table. -/
def cfgBasic : Cfg := ⟨[("text", 1)], 150, []⟩

/-- Fault injection making only `get_user_counts` raise. -/
def countsFault : StoreFaults := ⟨true, false, false, false, false, false, false, false⟩

/-- Fault injection making `record_message` and `add_user_exp` raise. -/
def writeFaults : StoreFaults := ⟨false, true, true, false, false, false, false, false⟩

/-- The level table of the C3 scenario: deltas 100 and 200. -/
def levelsTwo : List LevelCfg := [⟨some 100⟩, ⟨some 200⟩]

/-- A store holding exactly one message of user 1 at timestamp 100. -/
def dbOneMsg : DB := { emptyDB with messages := [⟨1, 1, "text", 100⟩] }

/-- A store where user 1 has 40 experience. -/
def dbExp40 : DB := { emptyDB with users := [⟨1, none, none, none, 40, 1⟩] }

/-- A store where user 1 has 60 experience. -/
def dbExp60 : DB := { emptyDB with users := [⟨1, none, none, none, 60, 1⟩] }

/-- A store with one user (id 1) holding 42 experience at level 3. -/
def dbOneUser : DB := { emptyDB with users := [⟨1, none, none, none, 42, 3⟩] }

/-- A single configured card named "card-a" with price 50. -/
def cardsOne : List CardCfg := [⟨"card-a", "C", "a test card", some 50⟩]

/-- The "today's message top" badge of the C5 scenario. -/
def badgeTop : BadgeCfg := ⟨"top-badge", "B", "first daily leader", ["send_message_top", "==", "1"]⟩

/-- C5 scenario store: user 1 sent a message on day one (ts 50), already
holds `top-badge` (awarded at ts 60 on day one), and sends the first
message of day two at ts 200 (day two starts at `t0 = 150`). -/
def dbBadgeDayTwo : DB := { emptyDB with
  users := [⟨1, none, none, none, 5, 1⟩],
  messages := [⟨1, 1, "text", 50⟩, ⟨1, 1, "text", 200⟩],
  badges := [(1, "top-badge", 60)] }

/-! ## C1: per-type point resolution -/

/-- C1: the claim says `points[type]` falls back to `points["text"]` and
then to 1, "always yields an integer point value and never fails the
event".  In fact `points_map.get("text", default=1)` (bot.py 783) is
evaluated first on a plain dict and raises `TypeError` for EVERY points
table and message type, so the resolution always fails the event: the
code contradicts the documented fallback intent (code bug). -/
theorem resolvePoint_always_raises (pm : List (String × Int)) (mt : String) :
    resolvePoint pm mt = Except.error typeErrMsg := rfl

/-! ## C3: level from experience -/

/-- C3 counterexample: with level deltas [100, 200] and experience 250 the
computed target level is not 3 — the computation as written raises
`TypeError`, and even with the `default=` slip corrected it yields 2,
because thresholds are cumulative (100, then 300). -/
theorem level_250_not_three :
    calculate_level_from_exp levelsTwo 250 ≠ Except.ok 3 ∧
    calculate_level_from_exp_fixed levelsTwo 250 ≠ 3 :=
  ⟨fun h => Except.noConfusion h, by decide⟩

/-- C3 amended: as written `_calculate_level_from_exp` raises `TypeError`
on any non-empty level table; with the keyword slip corrected, deltas
[100, 200] give cumulative thresholds 100 and 300, so experience 250
(and 299) yields level 2, and the terminal level 3 = len(deltas)+1 is
reached exactly from experience 300 on. -/
theorem level_thresholds_cumulative :
    calculate_level_from_exp levelsTwo 250 = Except.error typeErrMsg ∧
    calculate_level_from_exp_fixed levelsTwo 250 = 2 ∧
    calculate_level_from_exp_fixed levelsTwo 299 = 2 ∧
    calculate_level_from_exp_fixed levelsTwo 300 = 3 ∧
    calculate_level_from_exp_fixed levelsTwo 100000 = 3 :=
  ⟨rfl, rfl, rfl, rfl, rfl⟩

/-! ## C4: per-type counts versus total -/

/-- C4: the per-type query of `get_user_counts` bounds the window with
`ts <= end_ts` while the total query uses `ts < end_ts`, so for a message
exactly at the end bound the per-type counts sum to 1 while `total` is 0 —
the claimed identity `sum(per-type) = total` fails (code bug: the two
queries of one function disagree, and the spec documents the half-open
reading). -/
theorem counts_sum_ne_total :
    ((get_user_counts dbOneMsg 1 none (some 100)).1.map Prod.snd).sum = 1 ∧
    (get_user_counts dbOneMsg 1 none (some 100)).2 = 0 := ⟨rfl, rfl⟩

/-! ## C5: badges are not re-earnable -/

/-- C5: the claim says a badge whose condition is met again on a later
day's first message is awarded again.  In fact `_unlock_badge` never
awards anything: its body raises `TypeError` at
`today_counts.get("total", default=0)` (bot.py 904) and the surrounding
`try/except` swallows it, for every store, user, chat and badge table
(code bug — and see `unlock_badge_fixed_skips_held` for the second layer:
even with the `dict.get` slips corrected, the already-held check uses
lifetime holdings, which the code's own comments call a simplification of
the intended "earned today" check). -/
theorem unlock_badge_awards_nothing (f : StoreFaults) (db : DB) (u : Int)
    (chat : Option Int) (ts t0 : Int) (badgesCfg : List BadgeCfg) :
    unlock_badge f db u chat ts t0 badgesCfg = (db, []) := by
  unfold unlock_badge unlock_badge_body
  cases hf : f.counts_fail <;> simp [st_get_user_counts, hf, pyDictGetKw]

/-- With the `dict.get` slips corrected, the C5 scenario still awards
nothing: on day two's first message the top condition holds for user 1,
but `top-badge` is in the user's lifetime holdings (awarded on day one),
so the loop skips it — badges are not re-earnable under the code as
structured. -/
theorem unlock_badge_fixed_skips_held :
    badge_cond_holds dbBadgeDayTwo 1 (some 1) 150 badgeTop.condition = true ∧
    unlock_badge_fixed dbBadgeDayTwo 1 (some 1) 200 150 [badgeTop] = (dbBadgeDayTwo, []) :=
  ⟨rfl, rfl⟩

/-! ## C6: daily cap scenario -/

set_option maxRecDepth 40000

/-- C6: the claim's scenario — 200 text messages in one day with
`points.text = 1`, `daily_limit = 150` — should leave 150 total
experience and 200 recorded messages.  In fact every event crashes in
`_add_exp` at the point resolution (bot.py 783) before any record or
award: after 200 events the user has 0 experience and the message log is
empty (code bug; the cap logic itself is unreachable). -/
theorem daily_cap_scenario_crashes :
    get_user_exp (run_events noFaults cfgBasic [] emptyDB 1 1
      (List.replicate 200 ("text", 500)) 0) 1 = 0 ∧
    (run_events noFaults cfgBasic [] emptyDB 1 1
      (List.replicate 200 ("text", 500)) 0).messages.length = 0 := ⟨rfl, rfl⟩

/-! ## C7: card purchase -/

/-- C7: the claim says purchase succeeds iff experience ≥ price, and an
insufficient-funds rejection is reported.  In fact `cmd_buy_card` raises
`TypeError` at `card_info.get("point", default=0)` (bot.py 688) for every
card it finds — here the claim's own scenario (price 50, experience 40):
no rejection reply is produced, the handler escapes (code bug; no store
write happens, so the "experience unchanged, no row created" part holds
only vacuously). -/
theorem buy_card_raises :
    cmd_buy_card cardsOne dbExp40 1 ["card-a"] 99 = Except.error typeErrMsg := rfl

/-- With the price-read slip corrected, the purchase logic behaves as the
claim describes on both sides of the boundary: experience 40 < price 50 is
rejected with the store untouched, and experience 60 ≥ 50 debits exactly
50 and appends exactly one `cards` row. -/
theorem buy_card_fixed_boundary :
    cmd_buy_card_fixed cardsOne dbExp40 1 ["card-a"] 99 = (dbExp40, msg_insufficient 50 40) ∧
    cmd_buy_card_fixed cardsOne dbExp60 1 ["card-a"] 99 =
      ({ emptyDB with users := [⟨1, none, none, none, 10, 1⟩], cards := [(1, "card-a", 99)] },
        msg_bought "card-a" 50 10) := ⟨rfl, rfl⟩

/-! ## C2: error containment on the counting/awarding path -/

/-- C2 counterexample: on an ordinary text message against a healthy
store, `on_message` escapes with the `TypeError` raised inside `_add_exp`
(line 783 has no `try` around it), so the claim's "the event-handling
path never propagates the exception" is false; and in the slip-corrected
reading, a storage failure in the read of today's counts (the read the
claim explicitly includes) also propagates out of `_add_exp` untouched. -/
theorem add_exp_path_propagates :
    (on_message noFaults cfgBasic [] emptyDB 1 1 none none none none "text" 100 0).2 =
      some typeErrMsg ∧
    add_exp_fixed countsFault cfgBasic emptyDB 1 1 "text" 100 0 =
      (emptyDB, some storageErrMsg) := ⟨rfl, rfl⟩

/-- When the counts read succeeds, the slip-corrected `add_exp_pre` part
of `_add_exp` cannot fail. -/
theorem add_exp_pre_fixed_ok (f : StoreFaults) (cfg : Cfg) (db : DB) (u t0 : Int)
    (mt : String) (h : f.counts_fail = false) :
    ∃ v, add_exp_pre_fixed f cfg db u t0 mt = Except.ok v := by
  unfold add_exp_pre_fixed st_get_user_counts
  rw [h]
  exact ⟨_, rfl⟩

/-- C2 amended: in `_add_exp` (with the unrelated `dict.get` keyword slip
corrected so the path is reachable at all), failures of the
`record_message` write and of the `add_user_exp`/level-up step are caught
by the two `try/except` blocks — whenever the counts read succeeds the
method returns normally, whatever else fails — but a storage failure in
the read of today's counts (bot.py 789, outside any `try`) propagates out
of the method with the store untouched. -/
theorem add_exp_fixed_containment (f : StoreFaults) (cfg : Cfg) (db : DB) (u c : Int)
    (mt : String) (ts t0 : Int) :
    (f.counts_fail = false → (add_exp_fixed f cfg db u c mt ts t0).2 = none) ∧
    (f.counts_fail = true → add_exp_fixed f cfg db u c mt ts t0 = (db, some storageErrMsg)) := by
  constructor
  · intro h
    obtain ⟨v, hv⟩ := add_exp_pre_fixed_ok f cfg db u t0 mt h
    unfold add_exp_fixed
    rw [hv]
    dsimp only
    cases hrec : st_record_message f db u c mt ts <;> dsimp only <;>
      split <;> (try split) <;> rfl
  · intro h
    unfold add_exp_fixed add_exp_pre_fixed st_get_user_counts
    rw [h]
    rfl

/-- Witness for `add_exp_fixed_containment`: with failing write steps but
a healthy counts read no exception escapes, and with a failing counts
read the storage error escapes. -/
theorem add_exp_fixed_containment_witness :
    (add_exp_fixed writeFaults cfgBasic emptyDB 1 1 "text" 100 0).2 = none ∧
    add_exp_fixed countsFault cfgBasic emptyDB 1 1 "text" 100 0 =
      (emptyDB, some storageErrMsg) :=
  ⟨(add_exp_fixed_containment writeFaults cfgBasic emptyDB 1 1 "text" 100 0).1 rfl,
   (add_exp_fixed_containment countsFault cfgBasic emptyDB 1 1 "text" 100 0).2 rfl⟩

/-! ## C8: achievement unlock is idempotent -/

/-- Effect of one `add_user_achievement` call on the row count of its own
(user, achievement) pair: 0 becomes 1, anything else is left alone. -/
theorem count_achievement_add (db : DB) (u : Int) (a : String) (ts : Int) :
    count_achievement (add_user_achievement db u a ts) u a =
      if count_achievement db u a = 0 then 1 else count_achievement db u a := by
  unfold add_user_achievement
  by_cases hany : db.achievements.any (ach_match u a) = true
  · rw [if_pos hany]
    have hne : count_achievement db u a ≠ 0 := by
      unfold count_achievement
      obtain ⟨x, hx, hpx⟩ := List.any_eq_true.mp hany
      intro hlen
      rw [List.length_eq_zero] at hlen
      have hmem : x ∈ db.achievements.filter (ach_match u a) := List.mem_filter.mpr ⟨hx, hpx⟩
      rw [hlen] at hmem
      exact List.not_mem_nil x hmem
    rw [if_neg hne]
  · rw [if_neg hany]
    have h0 : count_achievement db u a = 0 := by
      unfold count_achievement
      rw [List.length_eq_zero, List.filter_eq_nil_iff]
      intro x hx hpx
      exact hany (List.any_eq_true.mpr ⟨x, hx, hpx⟩)
    rw [if_pos h0]
    unfold count_achievement at h0 ⊢
    simp only [List.filter_append, List.length_append, h0]
    simp [ach_match]

/-- Folding any further unlock attempts over a store that already has
exactly one row for the pair keeps exactly one row. -/
theorem add_achievement_many_keeps_one (u : Int) (a : String) (tss : List Int) :
    ∀ db : DB, count_achievement db u a = 1 →
      count_achievement (add_achievement_many db u a tss) u a = 1 := by
  induction tss with
  | nil => exact fun db h => h
  | cons t rest ih =>
    intro db h
    have hstep := count_achievement_add db u a t
    rw [h] at hstep
    simp only [one_ne_zero, if_false] at hstep
    exact ih _ hstep

/-- C8: starting from a store with no row for the (user, achievement)
pair, any positive number of unlock attempts (with arbitrary timestamps)
leaves exactly one `achievements` row for that pair: the
`ON CONFLICT(user_id, achievement) DO NOTHING` insert against the
`UNIQUE(user_id, achievement)` constraint makes re-unlocking a no-op, not
an error. -/
theorem achievement_unlock_idempotent (db : DB) (u : Int) (a : String) (t : Int)
    (tss : List Int) (h0 : count_achievement db u a = 0) :
    count_achievement (add_achievement_many db u a (t :: tss)) u a = 1 := by
  have h1 := count_achievement_add db u a t
  rw [if_pos h0] at h1
  exact add_achievement_many_keeps_one u a tss _ h1

/-- Witness for `achievement_unlock_idempotent`: two unlock attempts for
user 7 and key "first-message" on the empty store leave one row. -/
theorem achievement_unlock_idempotent_witness :
    count_achievement (add_achievement_many emptyDB 7 "first-message" (3 :: [9]))
      7 "first-message" = 1 :=
  achievement_unlock_idempotent emptyDB 7 "first-message" 3 [9] rfl

/-- Re-adding an achievement a user already holds is literally the
identity on the store, whatever the new timestamp. -/
theorem add_user_achievement_idem (db : DB) (u : Int) (a : String) (ts1 ts2 : Int) :
    add_user_achievement (add_user_achievement db u a ts1) u a ts2 =
      add_user_achievement db u a ts1 := by
  unfold add_user_achievement
  by_cases h : db.achievements.any (ach_match u a) = true
  · simp [h]
  · simp [h, List.any_append, ach_match]

/-! ## C9: stored level never decreases -/

/-- `find?` over a row-wise update that preserves `user_id` commutes with
the update. -/
theorem find_user_map (l : List UserRow) (g : UserRow → UserRow)
    (hg : ∀ r, (g r).user_id = r.user_id) (u : Int) :
    (l.map g).find? (user_match u) = (l.find? (user_match u)).map g := by
  induction l with
  | nil => rfl
  | cons r rest ih =>
    simp only [List.map_cons]
    by_cases h : user_match u r = true
    · have hg2 : user_match u (g r) = true := by
        unfold user_match at h ⊢
        rw [hg]
        exact h
      rw [List.find?_cons_of_pos _ hg2, List.find?_cons_of_pos _ h]
      rfl
    · have hg2 : ¬ user_match u (g r) = true := by
        unfold user_match at h ⊢
        rw [hg]
        exact h
      rw [List.find?_cons_of_neg _ hg2, List.find?_cons_of_neg _ h, ih]

/-- The generic level-up body never lowers the stored level: it writes
only a target strictly above the current level, and any failure leaves
the store untouched. -/
theorem check_with_level_monotone (calcFn : Int → Except String Int) (f : StoreFaults)
    (db : DB) (u : Int) :
    get_user_level db u ≤ get_user_level (check_user_level_up_with calcFn f db u) u := by
  unfold check_user_level_up_with
  cases hexp : st_get_user_exp f db u with
  | error e => exact le_refl (get_user_level db u)
  | ok exp =>
    dsimp only
    cases hcur : st_get_user_level f db u with
    | error e => exact le_refl (get_user_level db u)
    | ok cur =>
      dsimp only
      cases hc : calcFn exp with
      | error e => exact le_refl (get_user_level db u)
      | ok target =>
        dsimp only
        by_cases hgt : target > cur
        · rw [if_pos hgt]
          cases hset : st_set_user_level f db u target with
          | error e => exact le_refl (get_user_level db u)
          | ok d =>
            have hcur2 : cur = get_user_level db u := by
              unfold st_get_user_level at hcur
              by_cases hfl : f.level_read_fail = true
              · rw [if_pos hfl] at hcur
                cases hcur
              · rw [if_neg hfl] at hcur
                exact (Except.ok.injEq _ _ ▸ hcur).symm
            have hd : d = set_user_level db u target := by
              unfold st_set_user_level at hset
              by_cases hfl : f.set_level_fail = true
              · rw [if_pos hfl] at hset
                cases hset
              · rw [if_neg hfl] at hset
                exact (Except.ok.injEq _ _ ▸ hset).symm
            subst hd
            unfold get_user_level set_user_level
            rw [find_user_map _ _ (fun r => by split <;> rfl) u]
            cases hfind : db.users.find? (user_match u) with
            | none => exact le_refl _
            | some r =>
              have hp : user_match u r = true := List.find?_some hfind
              have hcur3 : cur = r.level := by
                rw [hcur2]
                unfold get_user_level
                rw [hfind]
              simp only [Option.map_some', hp, if_true, if_pos hp]
              exact le_of_lt (hcur3 ▸ hgt)
        · rw [if_neg hgt]

/-- C9: `check_user_level_up` persists a new level only when the computed
target exceeds the stored level, so the stored level never decreases —
both for the code as written (whose level computation raises `TypeError`
on non-empty level tables, caught by the body's `try/except`) and for the
slip-corrected computation; in particular an experience decrease such as
a card purchase (which never touches `level`) cannot lower it. -/
theorem stored_level_never_decreases (f : StoreFaults) (levels : List LevelCfg)
    (db : DB) (u : Int) :
    get_user_level db u ≤ get_user_level (check_user_level_up f levels db u) u ∧
    get_user_level db u ≤ get_user_level (check_user_level_up_fixed f levels db u) u :=
  ⟨check_with_level_monotone _ f db u, check_with_level_monotone _ f db u⟩

/-! ## C10: upsert frame conditions -/

/-- `find?` skips a whole first chunk in which it finds nothing. -/
theorem find_append_of_none {α : Type} (p : α → Bool) (l₁ l₂ : List α)
    (h : l₁.find? p = none) : (l₁ ++ l₂).find? p = l₂.find? p := by
  induction l₁ with
  | nil => rfl
  | cons a rest ih =>
    by_cases hp : p a = true
    · rw [List.find?_cons_of_pos _ hp] at h
      cases h
    · rw [List.find?_cons_of_neg _ hp] at h
      simp only [List.cons_append]
      rw [List.find?_cons_of_neg _ hp]
      exact ih h

/-- C10: `upsert_user` on an existing user rewrites exactly the three
display fields and keeps `total_exp` and `level`; on an unknown user it
inserts a fresh row with `total_exp = 0` (schema default) and
`level = 1`. -/
theorem upsert_user_frame (db : DB) (uid : Int) (un fn ln : Option String) :
    (∀ r, db.users.find? (user_match uid) = some r →
      (upsert_user db uid un fn ln).users.find? (user_match uid) =
        some { r with username := un, first_name := fn, last_name := ln }) ∧
    (db.users.find? (user_match uid) = none →
      (upsert_user db uid un fn ln).users.find? (user_match uid) =
        some ⟨uid, un, fn, ln, 0, 1⟩) := by
  constructor
  · intro r hr
    have hany : db.users.any (user_match uid) = true :=
      List.any_eq_true.mpr ⟨r, List.mem_of_find?_eq_some hr, List.find?_some hr⟩
    unfold upsert_user
    rw [if_pos hany]
    dsimp only
    rw [find_user_map _ _ (fun x => by split <;> rfl) uid, hr]
    have hp : user_match uid r = true := List.find?_some hr
    simp [hp]
  · intro hnone
    have hany : ¬ db.users.any (user_match uid) = true := by
      intro hany
      obtain ⟨x, hx, hpx⟩ := List.any_eq_true.mp hany
      exact (List.find?_eq_none.mp hnone x hx) hpx
    unfold upsert_user
    rw [if_neg hany]
    dsimp only
    rw [find_append_of_none _ _ _ hnone]
    have hself : user_match uid (⟨uid, un, fn, ln, 0, 1⟩ : UserRow) = true := by
      unfold user_match
      exact beq_self_eq_true uid
    rw [List.find?_cons_of_pos _ hself]

/-- Witness for `upsert_user_frame`: updating user 1's username keeps
experience 42 and level 3; upserting unknown user 2 creates a row with
experience 0 and level 1. -/
theorem upsert_user_frame_witness :
    (upsert_user dbOneUser 1 (some "alice") none none).users.find? (user_match 1) =
      some ⟨1, some "alice", none, none, 42, 3⟩ ∧
    (upsert_user emptyDB 2 none (some "Bob") none).users.find? (user_match 2) =
      some ⟨2, none, some "Bob", none, 0, 1⟩ :=
  ⟨(upsert_user_frame dbOneUser 1 (some "alice") none none).1 ⟨1, none, none, none, 42, 3⟩ rfl,
   (upsert_user_frame emptyDB 2 none (some "Bob") none).2 rfl⟩

end Cookie
